import Mathlib

/-!
Shallow embedding of the Ocea Collector integration
(`custom_components/ocea_collector`): the reconciliation engine of
`coordinator.py` and the authentication / payload-normalization logic of
`ocea_client.py`, together with theorems settling the specification claims.

Conventions of the embedding:
* Python `float` values are modelled as rationals (`ℚ`).
* Python `datetime.date` values are modelled as integers counting days from
  the Unix epoch (`1970-01-01` is day `0`); `timedelta(days=n)` is `+ n`,
  date comparison is integer comparison, and `.year`/`.month`/`.day` are
  recovered through the proleptic-Gregorian conversion `civilFromDays`.
* `None` becomes `Option.none`; Python truthiness (`x or d`, `if not x`) is
  modelled explicitly on `Option` values.
* Raising an exception becomes returning `none` / an `Except.error`.
-/

namespace OceaCollector

/-! ## Calendar arithmetic

`date.year/.month/.day`, `date.replace(day=1)` and day differences are the
only calendar operations the coordinator uses.  Dates are epoch-day integers;
the two conversions below implement the standard civil-calendar algorithm. -/

/-- A calendar date split in year / month / day, as Python's `date` exposes
via `.year`, `.month`, `.day`. -/
structure Civil where
  year : Int
  month : Int
  day : Int
deriving Repr, DecidableEq

/-- Convert an epoch-day count to a civil (proleptic Gregorian) date. -/
def civilFromDays (z : Int) : Civil :=
  let z' := z + 719468
  let era := Int.fdiv z' 146097
  let doe := (z' - era * 146097).toNat
  let yoe := (doe - doe / 1460 + doe / 36524 - doe / 146096) / 365
  let doy := doe - (365 * yoe + yoe / 4 - yoe / 100)
  let mp := (5 * doy + 2) / 153
  let d := doy - (153 * mp + 2) / 5 + 1
  let m := if mp < 10 then mp + 3 else mp - 9
  let y := (yoe : Int) + era * 400
  ⟨if (m : Int) ≤ 2 then y + 1 else y, (m : Int), (d : Int)⟩

/-- Convert a civil (proleptic Gregorian) date to an epoch-day count. -/
def daysFromCivil (y m d : Int) : Int :=
  let y' := if m ≤ 2 then y - 1 else y
  let era := Int.fdiv y' 400
  let yoe := (y' - era * 400).toNat
  let mp := (if m > 2 then m - 3 else m + 9).toNat
  let doy := (153 * mp + 2) / 5 + (d - 1).toNat
  let doe := yoe * 365 + yoe / 4 - yoe / 100 + doy
  era * 146097 + (doe : Int) - 719468

/-- Python's `d.month` for an epoch day. -/
def monthOf (z : Int) : Int := (civilFromDays z).month

/-- Python's `d.day` for an epoch day. -/
def dayOf (z : Int) : Int := (civilFromDays z).day

/-- Python's `d.year` for an epoch day. -/
def yearOf (z : Int) : Int := (civilFromDays z).year

/-- Python's `d.replace(day=1)` for an epoch day: the first day of the month. -/
def monthStart (z : Int) : Int :=
  daysFromCivil (civilFromDays z).year (civilFromDays z).month 1

/-- Two epoch days lie in the same calendar month (same year and month). -/
def sameCalendarMonth (a b : Int) : Prop :=
  yearOf a = yearOf b ∧ monthOf a = monthOf b

instance (a b : Int) : Decidable (sameCalendarMonth a b) := by
  unfold sameCalendarMonth; infer_instance

/-! ## Numeric helpers shared by client and coordinator -/

/-- The tolerance used by the invalid-decrease check (`1e-6` in the code). -/
def epsilon : ℚ := 1 / 1000000

/-- Round to the nearest integer, ties to even (Python's `round`). -/
def roundHalfEven (q : ℚ) : Int :=
  let f := ⌊q⌋
  let frac := q - f
  if frac < 1 / 2 then f
  else if frac > 1 / 2 then f + 1
  else if f % 2 = 0 then f else f + 1

/-- Python's `round(q, 3)`. -/
def round3 (q : ℚ) : ℚ := (roundHalfEven (q * 1000) : ℚ) / 1000

/-- Python truthiness of an optional float (`None` and `0.0` are falsy). -/
def truthyQ : Option ℚ → Bool
  | none => false
  | some v => v != 0

/-- Python `x or 0.0` for an optional float. -/
def pyOrZero (o : Option ℚ) : ℚ :=
  match o with
  | none => 0
  | some v => if v = 0 then 0 else v

/-- Python `x or d` for an optional string (`None` and `""` are falsy). -/
def pyOrStr (o : Option String) (d : String) : String :=
  match o with
  | none => d
  | some s => if s = "" then d else s

/-- Python truthiness of an optional string token (`None` and `""` falsy). -/
def strTruthy : Option String → Bool
  | none => false
  | some s => s != ""

/-! ## `ocea_client.py`: payload normalization (`_to_float`, `_parse_conso`) -/

/-- A JSON scalar as `_to_float` receives it: `None`, a bool, a string or a
number. -/
inductive PyVal where
  | pynone
  | pybool (b : Bool)
  | pystr (s : String)
  | pynum (q : ℚ)
deriving Repr, DecidableEq

/-- Python's `str(...)` on a scalar.  The exact decimal rendering of numbers
is abstracted by `toString` on `ℚ`; the claims only exercise the string and
`None` cases. -/
def pyStr : PyVal → String
  | .pynone => "None"
  | .pybool b => if b then "True" else "False"
  | .pystr s => s
  | .pynum q => toString q

/-- ASCII lower-casing of one character (`str.lower()`; the tokens the
client compares against are plain ASCII). -/
def lowerChar (c : Char) : Char :=
  if 65 ≤ c.toNat ∧ c.toNat ≤ 90 then Char.ofNat (c.toNat + 32) else c

/-- Python `str.isspace` characters relevant to `str.strip()`. -/
def isSpaceChar (c : Char) : Bool :=
  c = ' ' ∨ c = '\t' ∨ c = '\n' ∨ c = '\r'

/-- Python's `str.strip()`: drop whitespace from both ends. -/
def stripChars (cs : List Char) : List Char :=
  ((cs.dropWhile isSpaceChar).reverse.dropWhile isSpaceChar).reverse

/-- Python's `value.strip()` on a string. -/
def pyStrip (s : String) : String := ⟨stripChars s.data⟩

/-- Python's `value.lower()` on a string (ASCII). -/
def pyLower (s : String) : String := ⟨s.data.map lowerChar⟩

/-- Python's `value.replace(",", ".")`: both arguments are single characters, so
this is a character-wise substitution. -/
def commaToDot (s : String) : String :=
  ⟨s.data.map fun c => if c = ',' then '.' else c⟩

/-- Value of a digit run, as `float()` reads it. -/
def digitsToNat (cs : List Char) : Nat :=
  cs.foldl (fun a c => a * 10 + (c.toNat - 48)) 0

/-- Split a char list into its leading digit run and the rest. -/
def spanDigits : List Char → List Char × List Char
  | [] => ([], [])
  | c :: rest =>
    if c.isDigit then
      let p := spanDigits rest
      (c :: p.1, p.2)
    else ([], c :: rest)

/-- Consume an optional leading sign; `true` means negative. -/
def parseNumSign : List Char → Bool × List Char
  | '-' :: rest => (true, rest)
  | '+' :: rest => (false, rest)
  | cs => (false, cs)

/-- Parse `digits`, `digits.digits`, `digits.` or `.digits`. -/
def parseMantissa (cs : List Char) : Option (ℚ × List Char) :=
  let p := spanDigits cs
  match p.2 with
  | '.' :: rest2 =>
    let q := spanDigits rest2
    if p.1.isEmpty ∧ q.1.isEmpty then none
    else some ((digitsToNat p.1 : ℚ) + (digitsToNat q.1 : ℚ) / (10 : ℚ) ^ q.1.length, q.2)
  | _ => if p.1.isEmpty then none else some ((digitsToNat p.1 : ℚ), p.2)

/-- Parse an `e`/`E` exponent suffix. -/
def parseExponent (cs : List Char) : Option (Int × List Char) :=
  match cs with
  | 'e' :: rest =>
    let s := parseNumSign rest
    let p := spanDigits s.2
    if p.1.isEmpty then none
    else some (if s.1 then -(digitsToNat p.1 : Int) else (digitsToNat p.1 : Int), p.2)
  | 'E' :: rest =>
    let s := parseNumSign rest
    let p := spanDigits s.2
    if p.1.isEmpty then none
    else some (if s.1 then -(digitsToNat p.1 : Int) else (digitsToNat p.1 : Int), p.2)
  | _ => none

/-- Python's `float(s)` on a string, returning `none` where Python raises
`ValueError`: optional surrounding whitespace, optional sign, decimal
mantissa, optional exponent.  (Exotic accepted forms such as `inf`/`nan`
are outside the payloads this integration sees and are not modelled.) -/
def pyFloatOfString (s : String) : Option ℚ :=
  let cs := stripChars s.data
  let sg := parseNumSign cs
  match parseMantissa sg.2 with
  | none => none
  | some m =>
    let base := if sg.1 then -m.1 else m.1
    match m.2 with
    | [] => some base
    | rest =>
      match parseExponent rest with
      | none => none
      | some e => if e.2.isEmpty then some (base * (10 : ℚ) ^ e.1) else none

/-- Source `_to_float` (`ocea_client.py` lines 76-91): bools map to `1.0`/`0.0`,
French/English yes-no variants map to `1.0`/`0.0`, other strings are passed
through `float()` after a comma-to-dot substitution, anything unparseable
yields `None` instead of raising. -/
def toFloat : PyVal → Option ℚ
  | .pynone => none
  | .pybool b => some (if b then 1 else 0)
  | .pystr s =>
    let lowered := pyLower (pyStrip s)
    if lowered = "oui" ∨ lowered = "yes" ∨ lowered = "true" then some 1
    else if lowered = "non" ∨ lowered = "no" ∨ lowered = "false" ∨
        lowered = "pas de fuite" ∨ lowered = "aucune fuite" then some 0
    else pyFloatOfString (commaToDot s)
  | .pynum q => some q

/-- One record of the `consommations` array.  A field is the value of the
corresponding key; an absent key is `none` / `.pynone` (Python `dict.get`). -/
structure ConsoRecord where
  date : Option String
  valeur : PyVal
  fuiteEstimee : PyVal
deriving Repr, DecidableEq

/-- The consumption payload handed to `_parse_conso`. -/
structure ConsoPayload where
  consommations : List ConsoRecord
  unite : Option String
deriving Repr, DecidableEq

/-- The normalized per-fluid snapshot `_parse_conso` returns. -/
structure FluidSnapshot where
  latest_value : Option ℚ
  latest_date : Option String
  leak_estimate : Option String
  unit : Option String
  daily : Option ℚ
deriving Repr, DecidableEq

/-- The record Python's `latest = {}` default denotes. -/
def emptyRecord : ConsoRecord := ⟨none, .pynone, .pynone⟩

/-- Python's `sorted(consos, key=lambda x: x.get("date", ""))`: a stable sort on the
date string (modelled with insertion sort, which is stable like Python's). -/
def sortedConsos (payload : ConsoPayload) : List ConsoRecord :=
  payload.consommations.insertionSort fun a b => a.date.getD "" ≤ b.date.getD ""

/-- Python's `consos_sorted[-1] if consos_sorted else {}`. -/
def latestRecord (payload : ConsoPayload) : ConsoRecord :=
  (sortedConsos payload).getLast?.getD emptyRecord

/-- Source `_parse_conso` (`ocea_client.py` lines 94-123). -/
def parseConso (payload : ConsoPayload) : FluidSnapshot :=
  let consos_sorted := sortedConsos payload
  let latest := latestRecord payload
  let factor : ℚ := if payload.unite = some "m3" then 1000 else 1
  let latest_value := (toFloat latest.valeur).map (· * factor)
  let leak_estimate :=
    if latest.fuiteEstimee = .pynone then none else some (pyStr latest.fuiteEstimee)
  let daily : Option ℚ :=
    if 2 ≤ consos_sorted.length then
      match toFloat (consos_sorted.getLast?.getD emptyRecord).valeur,
          toFloat (consos_sorted.dropLast.getLast?.getD emptyRecord).valeur with
      | some last_val, some prev_val =>
        let d := round3 ((last_val - prev_val) * factor)
        if d < 0 then none else some d
      | _, _ => none
    else none
  { latest_value := latest_value
    latest_date := latest.date
    leak_estimate := leak_estimate
    unit := if payload.unite = some "m3" then some "L" else payload.unite
    daily := daily }

/-! ## `ocea_client.py`: authentication cascade

The network is abstracted by `AuthEnv`: what each grant endpoint would
answer, and the HTTP status of the (first and retried) API request.  Each
login primitive returns whether it succeeded, the token state it leaves
behind, and the trace of attempts it made.  `_auth_pkce` assigns the token
pair only at its very end, so a raised `OceaAuthError` (modelled as `none`)
leaves the state it was called with untouched. -/

/-- A token-endpoint JSON body (`token.get("access_token")` etc.). -/
structure TokenResp where
  access_token : Option String
  refresh_token : Option String
deriving Repr, DecidableEq

/-- The client's mutable token pair. -/
structure AuthState where
  access_token : Option String
  refresh_token : Option String
deriving Repr, DecidableEq

/-- One observable authentication-related action, carrying the token state
at the moment the action starts. -/
inductive AuthEvent where
  | refreshAttempt (st : AuthState)
  | ropcAttempt (st : AuthState)
  | pkceAttempt (st : AuthState)
  | request (token : Option String)
deriving Repr, DecidableEq

/-- The environment: outcomes the provider would give.  `none` models a
non-success response (for the PKCE flow: a raised `OceaAuthError`). -/
structure AuthEnv where
  refresh_resp : Option TokenResp
  ropc_resp : Option TokenResp
  pkce_resp : Option TokenResp
  status1 : Nat
  status2 : Nat
deriving Repr, DecidableEq

/-- Result of one login primitive. -/
structure AttemptResult where
  ok : Bool
  state : AuthState
  events : List AuthEvent
deriving Repr, DecidableEq

/-- Source `_try_refresh` (`ocea_client.py` lines 139-160): no-op without a
refresh token; otherwise posts the grant, keeps the old refresh token when
the response omits one, succeeds iff an access token came back. -/
def tryRefresh (env : AuthEnv) (st : AuthState) : AttemptResult :=
  if ¬ strTruthy st.refresh_token then ⟨false, st, []⟩
  else
    match env.refresh_resp with
    | none => ⟨false, st, [.refreshAttempt st]⟩
    | some tok =>
      let st' : AuthState :=
        ⟨tok.access_token, match tok.refresh_token with
          | some r => some r
          | none => st.refresh_token⟩
      ⟨strTruthy st'.access_token, st', [.refreshAttempt st]⟩

/-- Source `_try_ropc` (`ocea_client.py` lines 162-182). -/
def tryRopc (env : AuthEnv) (st : AuthState) : AttemptResult :=
  match env.ropc_resp with
  | none => ⟨false, st, [.ropcAttempt st]⟩
  | some tok => ⟨strTruthy tok.access_token, ⟨tok.access_token, tok.refresh_token⟩,
      [.ropcAttempt st]⟩

/-- Source `_auth_pkce` (`ocea_client.py` lines 184-307), abstracted to its
observable outcome: either it raises (`none`, state unchanged) or it stores
the token pair obtained from the final exchange. -/
def authPkce (env : AuthEnv) (st : AuthState) : Option AuthState × List AuthEvent :=
  match env.pkce_resp with
  | none => (none, [.pkceAttempt st])
  | some tok => (some ⟨tok.access_token, tok.refresh_token⟩, [.pkceAttempt st])

/-- Source `_handle_unauthorized` (`ocea_client.py` lines 309-321): refresh first;
on failure clear both tokens, then run the full PKCE flow, catching its
error. -/
def handleUnauthorized (env : AuthEnv) (st : AuthState) : AttemptResult :=
  let r := tryRefresh env st
  if r.ok then ⟨true, r.state, r.events⟩
  else
    let cleared : AuthState := ⟨none, none⟩
    match authPkce env cleared with
    | (none, ev2) => ⟨false, cleared, r.events ++ ev2⟩
    | (some st3, ev2) => ⟨strTruthy st3.access_token, st3, r.events ++ ev2⟩

/-- Source `_ensure_token` (`ocea_client.py` lines 323-331): cached token, then
refresh, then ROPC, then PKCE (whose failure propagates as `none`). -/
def ensureToken (env : AuthEnv) (st : AuthState) : Option AuthState × List AuthEvent :=
  if strTruthy st.access_token then (some st, [])
  else
    let r := tryRefresh env st
    if r.ok then (some r.state, r.events)
    else
      let r2 := tryRopc env r.state
      if r2.ok then (some r2.state, r.events ++ r2.events)
      else
        match authPkce env r2.state with
        | (none, ev3) => (none, r.events ++ r2.events ++ ev3)
        | (some st3, ev3) => (some st3, r.events ++ r2.events ++ ev3)

/-- Outcome of `_get`: the final state, the trace, and either the final
successful HTTP status or the `OceaAuthError` message. -/
structure GetOutcome where
  result : Except String Nat
  state : AuthState
  events : List AuthEvent
deriving Repr

/-- Source `_get` (`ocea_client.py` lines 333-343): ensure a token, issue the
request, on a 401 run `_handle_unauthorized` and retry exactly once if it
succeeded, then fail on any status `≥ 400`. -/
def getRequest (env : AuthEnv) (st : AuthState) : GetOutcome :=
  match ensureToken env st with
  | (none, ev0) => ⟨.error "authentication failed", st, ev0⟩
  | (some st0, ev0) =>
    let ev1 := ev0 ++ [.request st0.access_token]
    if env.status1 = 401 then
      let h := handleUnauthorized env st0
      if h.ok then
        let ev2 := ev1 ++ h.events ++ [.request h.state.access_token]
        if 400 ≤ env.status2 then
          ⟨.error ("HTTP " ++ toString env.status2), h.state, ev2⟩
        else ⟨.ok env.status2, h.state, ev2⟩
      else ⟨.error ("HTTP " ++ toString 401), h.state, ev1 ++ h.events⟩
    else if 400 ≤ env.status1 then
      ⟨.error ("HTTP " ++ toString env.status1), st0, ev1⟩
    else ⟨.ok env.status1, st0, ev1⟩

/-- Number of API requests sent in a trace. -/
def requestCount (evs : List AuthEvent) : Nat :=
  evs.countP fun e => match e with
    | .request _ => true
    | _ => false

/-! ## `coordinator.py`: the reconciliation engine

The Statistics Sink is abstracted to the two operations the engine uses:
`_get_last_stat` is an input (`sink_last`), and the points passed to
`async_add_external_statistics` are the `pushed` output list. -/

/-- The last stored statistics row (`get_last_statistics` result): its
date (`datetime.fromtimestamp(row["start"]).date()`) and its optional
`state` / `sum` fields. -/
structure StatRow where
  start : Int
  state : Option ℚ
  sum : Option ℚ
deriving Repr, DecidableEq

/-- One `StatisticData` point appended to the sink: the day it starts, the
per-day `state` and the cumulative `sum`. -/
structure StatPoint where
  start : Int
  state : ℚ
  sum : ℚ
deriving Repr, DecidableEq

/-- Source `_get_statistics_metadata` (`coordinator.py` lines 429-449) returns a
metadata record only for the units it knows; otherwise `None`, and the
caller writes nothing. -/
def metadataAvailable (unit : Option String) : Bool :=
  unit = some "m3" ∨ unit = some "L" ∨ unit = some "kWh"

/-- The `for offset in range(1, days_between + 1)` loop of
`_update_statistics_range`: each iteration adds `per_day` to the running
sum and appends a point dated `stats_start + offset`. -/
def statsLoop (stats_start : Int) (per_day : ℚ) :
    Nat → Nat → ℚ → List StatPoint
  | _, 0, _ => []
  | offset, n + 1, sum_value =>
    let day := stats_start + (offset : Int)
    let sum' := sum_value + per_day
    ⟨day, per_day, sum'⟩ :: statsLoop stats_start per_day (offset + 1) n sum'

/-- Source `_update_statistics_range` (`coordinator.py` lines 341-386), returning
the points it appends to the sink (empty when it returns without writing). -/
def updateStatisticsRange (unit : Option String) (sink_last : Option StatRow)
    (start_date end_date : Int) (per_day : ℚ) : List StatPoint :=
  let sum_value : ℚ :=
    match sink_last with
    | some r => if truthyQ r.sum then r.sum.getD 0 else 0
    | none => 0
  let last_stat_date : Option Int := sink_last.map StatRow.start
  if per_day < 0 then []
  else
    let stats_start : Int :=
      match last_stat_date with
      | some d => if d > start_date then d else start_date
      | none => start_date
    let days_between := end_date - stats_start
    if days_between ≤ 0 then []
    else
      let stats := statsLoop stats_start per_day 1 days_between.toNat sum_value
      if stats = [] then []
      else if metadataAvailable unit then stats else []

/-- Source `_update_statistics_correction` (`coordinator.py` lines 388-427):
returns the corrected state (`None` when the correction is rejected) and
the point written (empty when nothing is written). -/
def updateStatisticsCorrection (unit : Option String) (sink_last : Option StatRow)
    (day : Int) (delta : ℚ) : Option ℚ × List StatPoint :=
  if delta ≤ 0 then (none, [])
  else
    match sink_last with
    | none => (none, [])
    | some r =>
      if r.start ≠ day then (none, [])
      else
        let last_state := pyOrZero r.state
        let last_sum := pyOrZero r.sum
        let new_state := round3 (last_state + delta)
        if new_state < 0 then (none, [])
        else
          let new_sum := last_sum - last_state + new_state
          if metadataAvailable unit then (some new_state, [⟨day, new_state, new_sum⟩])
          else (none, [])

/-- Effective-date resolution (`coordinator.py` lines 164-169): the parsed
API date, except that `now.date() - timedelta(days=1)` is substituted when
the API date is absent or `current_date.day == 1 and now.date().day > 1`. -/
def effectiveDate (api_date : Option Int) (today : Int) : Int :=
  match api_date with
  | none => today - 1
  | some d => if dayOf d = 1 ∧ dayOf today > 1 then today - 1 else d

/-- The effective-date rule as the spec words it (for comparison with
`effectiveDate`, which is the code's rule): substitute "yesterday relative
to now" exactly when the reported date is absent, or when it falls on the
1st of a month while "now" is later in a different calendar month. -/
def effectiveDateSpec (api_date : Option Int) (today : Int) : Int :=
  match api_date with
  | none => today - 1
  | some d =>
    if dayOf d = 1 ∧ d < today ∧ ¬ sameCalendarMonth today d then today - 1 else d

/-- Value-status classification (`coordinator.py` lines 182-197).  After
effective-date substitution `current_date` is always present, so the
`current_date is None` half of the first test is vacuous and only the
total's presence is checked.  A status still `"unknown"` at line 196
becomes `"ok"`. -/
def classifyValueStatus (current_total : Option ℚ) (current_date : Int)
    (last_total : Option ℚ) (last_total_at : Option Int) : String :=
  match current_total with
  | none => "missing"
  | some ct =>
    if ct < 0 then "invalid"
    else
      match last_total, last_total_at with
      | some lt, some lta =>
        if current_date < lta then "invalid"
        else if monthOf current_date = monthOf lta then
          if ct = 0 ∧ lt > 0 then "invalid"
          else if ct + epsilon < lt then "invalid"
          else "ok"
        else "ok"
      | _, _ => "ok"

/-- Stale downgrade (`coordinator.py` lines 199-208): a tentative `"ok"`
with an unchanged total but an advanced date becomes `"stale"`. -/
def staleDowngrade (status : String) (current_total : Option ℚ) (current_date : Int)
    (last_total : Option ℚ) (last_total_at : Option Int) : String :=
  match current_total, last_total, last_total_at with
  | some ct, some lt, some lta =>
    if status = "ok" ∧ ct = lt ∧ current_date > lta then "stale" else status
  | _, _, _ => status

/-- Fallback substitution (`coordinator.py` lines 210-215): on
`missing`/`invalid`, fall back to the prior total (reclassified `"stale"`)
when one exists, else the effective value is `None`.  Returns
`(value_used, value_status)`. -/
def fallbackSubstitute (status : String) (current_total : Option ℚ)
    (last_total : Option ℚ) : Option ℚ × String :=
  if status = "missing" ∨ status = "invalid" then
    match last_total with
    | some lt => (some lt, "stale")
    | none => (none, status)
  else (current_total, status)

/-- Month-reset resolution (`coordinator.py` lines 253-261): for a
different-date reading, start from `(delta, no source, last_total_at)` and
rewrite to `(current_total, "month_reset", month_start - 1)` when the naive
delta is negative and the month numbers differ.  Returns
`(delta, daily_source, stats_start)`. -/
def resolveDelta (current_total last_total : ℚ) (last_total_at current_date : Int) :
    ℚ × Option String × Int :=
  let stats_start := last_total_at
  let delta := current_total - last_total
  if delta < 0 ∧ monthOf last_total_at ≠ monthOf current_date then
    (current_total, some "month_reset", monthStart current_date - 1)
  else (delta, none, stats_start)

/-- The daily-derivation outcome: value, status, source and the points
pushed to the sink. -/
structure DailyResult where
  daily_value : Option ℚ
  daily_status : String
  daily_source : Option String
  pushed : List StatPoint
deriving Repr, DecidableEq

/-- Daily-delta derivation (`coordinator.py` lines 217-286), starting from
`daily_status = "unknown"`.  The engine swallows sink errors, so the sink
helpers contribute only their writes.  In the final branch the fall-through
of the Python `elif` chain (no branch taken) leaves the initial
`"unknown"` status and whatever `daily_source` the reset resolution set. -/
def deriveDaily (value_status : String) (value_used : Option ℚ)
    (current_total : Option ℚ) (current_date : Int)
    (last_total : Option ℚ) (last_total_at : Option Int)
    (unit : Option String) (sink_last : Option StatRow) : DailyResult :=
  if value_status = "stale" then ⟨none, "stale", some "stale_total", []⟩
  else if value_status ≠ "ok" ∧ value_used = none then ⟨none, "missing", none, []⟩
  else if value_status ≠ "ok" then ⟨none, "invalid", some "invalid_total", []⟩
  else
    match current_total, last_total, last_total_at with
    | some ct, some lt, some lta =>
      if current_date = lta then
        let delta := ct - lt
        if delta < 0 then ⟨none, "invalid", some "negative_delta", []⟩
        else if delta = 0 then ⟨none, "stale", none, []⟩
        else
          let corr := updateStatisticsCorrection unit sink_last current_date delta
          ⟨corr.1, "corrected", some "same_day_correction", corr.2⟩
      else
        let r := resolveDelta ct lt lta current_date
        let delta := r.1
        let daily_source := r.2.1
        let stats_start := r.2.2
        let days_between := current_date - stats_start
        if 1 ≤ days_between ∧ delta = 0 then ⟨none, "stale", some "no_change", []⟩
        else if 1 ≤ days_between ∧ 0 ≤ delta then
          let daily_value := round3 (delta / (days_between : ℚ))
          let daily_status := if days_between = 1 then "ok" else "estimated"
          let source := pyOrStr daily_source
            (if days_between = 1 then "delta" else "multi_day_estimate")
          let pushed := updateStatisticsRange unit sink_last stats_start current_date daily_value
          ⟨some daily_value, daily_status, some source, pushed⟩
        else if 1 ≤ days_between ∧ delta < 0 then
          ⟨none, "invalid", some "negative_delta", []⟩
        else ⟨none, "unknown", daily_source, []⟩
    | _, _, _ => ⟨none, "missing", none, []⟩

/-- Baseline update (`coordinator.py` lines 295-303): the store keeps its
old `(last_total, last_total_at)` pair except when the final status is
`"ok"` with a present total and the baseline was absent or the total
changed; the `elif` branch re-persists the old pair unchanged. -/
def updateStore (value_status : String) (current_total : Option ℚ) (current_date : Int)
    (last_total : Option ℚ) (last_total_at : Option Int) : Option ℚ × Option Int :=
  if value_status = "ok" ∧ current_total.isSome then
    if last_total.isNone ∨ last_total_at.isNone ∨ current_total ≠ last_total then
      (current_total, some current_date)
    else (last_total, last_total_at)
  else (last_total, last_total_at)

/-- Per-fluid inputs of one poll of `_async_update_data`
(`coordinator.py` lines 157-176). -/
structure FluidInput where
  current_total : Option ℚ
  api_date : Option Int
  last_total : Option ℚ
  last_total_at : Option Int
  unit : Option String
  sink_last : Option StatRow
deriving Repr, DecidableEq

/-- Per-fluid outputs of one poll: the `FluidData` fields the engine
derives, the persisted baseline, and the sink writes. -/
structure FluidOutput where
  value_used : Option ℚ
  value_status : String
  current_date : Int
  daily_value : Option ℚ
  daily_status : String
  daily_source : Option String
  estimated_today : Option ℚ
  estimated_today_source : Option String
  store_total : Option ℚ
  store_at : Option Int
  pushed : List StatPoint
deriving Repr, DecidableEq

/-- One per-fluid reconciliation pass (`coordinator.py` lines 157-321):
effective date, classification, stale downgrade, fallback, daily
derivation with sink writes, estimated-today fallback and baseline
update.  `today` is `now.date()`. -/
def reconcileFluid (inp : FluidInput) (today : Int) : FluidOutput :=
  let current_date := effectiveDate inp.api_date today
  let st0 := classifyValueStatus inp.current_total current_date inp.last_total inp.last_total_at
  let st1 := staleDowngrade st0 inp.current_total current_date inp.last_total inp.last_total_at
  let fb := fallbackSubstitute st1 inp.current_total inp.last_total
  let value_used := fb.1
  let value_status := fb.2
  let d := deriveDaily value_status value_used inp.current_total current_date
    inp.last_total inp.last_total_at inp.unit inp.sink_last
  let est : Option ℚ × Option String :=
    match d.daily_value with
    | some v => (some v, d.daily_source)
    | none =>
      match value_used with
      | some vu =>
        (some (round3 (vu / ((max (dayOf current_date) 1 : Int) : ℚ))), some "monthly_average")
      | none => (none, none)
  let store := updateStore value_status inp.current_total current_date
    inp.last_total inp.last_total_at
  { value_used := value_used
    value_status := value_status
    current_date := current_date
    daily_value := d.daily_value
    daily_status := d.daily_status
    daily_source := d.daily_source
    estimated_today := est.1
    estimated_today_source := est.2
    store_total := store.1
    store_at := store.2
    pushed := d.pushed }

/-! ## Sanity checks of the calendar embedding -/

example : civilFromDays 0 = ⟨1970, 1, 1⟩ := by decide
example : daysFromCivil 1970 1 1 = 0 := by decide
example : civilFromDays (daysFromCivil 2025 3 1) = ⟨2025, 3, 1⟩ := by decide
example : civilFromDays (daysFromCivil 2025 2 28) = ⟨2025, 2, 28⟩ := by decide
example : daysFromCivil 2025 3 1 = daysFromCivil 2025 2 28 + 1 := by decide
example : daysFromCivil 2024 2 29 + 1 = daysFromCivil 2024 3 1 := by decide
example : daysFromCivil 2025 1 1 = daysFromCivil 2024 12 31 + 1 := by decide

/-! ## Helper lemmas -/

/-- An `"ok"` classification implies a non-negative total. -/
theorem classify_ok_total_nonneg (ct : ℚ) (cd : Int) (olt : Option ℚ) (olta : Option Int)
    (h : classifyValueStatus (some ct) cd olt olta = "ok") : 0 ≤ ct := by
  by_contra hneg
  rw [not_le] at hneg
  unfold classifyValueStatus at h
  simp only [if_pos hneg] at h
  exact absurd h (by decide)

/-- An `"ok"` classification against a present baseline implies the
effective date does not precede the baseline date. -/
theorem classify_ok_not_date_lt (ct lt : ℚ) (cd lta : Int)
    (h : classifyValueStatus (some ct) cd (some lt) (some lta) = "ok") : ¬ cd < lta := by
  intro hlt
  unfold classifyValueStatus at h
  by_cases hneg : ct < 0
  · simp only [if_pos hneg] at h
    exact absurd h (by decide)
  · simp only [if_neg hneg, if_pos hlt] at h
    exact absurd h (by decide)

/-- The stale downgrade never invents an `"ok"`. -/
theorem staleDowngrade_ok (s : String) (oct : Option ℚ) (cd : Int)
    (olt : Option ℚ) (olta : Option Int)
    (h : staleDowngrade s oct cd olt olta = "ok") : s = "ok" := by
  rcases oct with _ | ct
  · exact h
  rcases olt with _ | lt
  · exact h
  rcases olta with _ | lta
  · exact h
  have h' : (if s = "ok" ∧ ct = lt ∧ cd > lta then "stale" else s) = "ok" := h
  by_cases hc : s = "ok" ∧ ct = lt ∧ cd > lta
  · exact hc.1
  · rwa [if_neg hc] at h'

/-- The fallback substitution never invents an `"ok"`. -/
theorem fallbackSubstitute_ok (s : String) (oct olt : Option ℚ)
    (h : (fallbackSubstitute s oct olt).2 = "ok") : s = "ok" := by
  unfold fallbackSubstitute at h
  by_cases hms : s = "missing" ∨ s = "invalid"
  · rw [if_pos hms] at h
    rcases olt with _ | lt
    · exact h
    · have h' : "stale" = "ok" := h
      exact absurd h' (by decide)
  · rwa [if_neg hms] at h

/-- Closed form of the backfill loop: starting at `offset`, the `i`-th
emitted point is dated `stats_start + offset + i` and carries the running
sum after `i + 1` increments. -/
theorem statsLoop_closed (ss : Int) (pd : ℚ) :
    ∀ (n off : Nat) (sum : ℚ),
      statsLoop ss pd off n sum =
        (List.range n).map fun i =>
          ⟨ss + ((off : Int) + (i : Int)), pd, sum + ((i : ℚ) + 1) * pd⟩
  | 0, off, sum => rfl
  | n + 1, off, sum => by
    rw [statsLoop, statsLoop_closed ss pd n (off + 1) (sum + pd),
      List.range_succ_eq_map, List.map_cons, List.map_map]
    congr 1
    · simp only [StatPoint.mk.injEq]
      refine ⟨by push_cast; ring, trivial, by push_cast; ring⟩
    · refine List.map_congr_left fun i _ => ?_
      simp only [Function.comp_apply, StatPoint.mk.injEq]
      refine ⟨by push_cast; ring, trivial, by push_cast; ring⟩

/-- Every point emitted by the backfill loop carries `per_day` as state. -/
theorem statsLoop_state (ss : Int) (pd : ℚ) (n off : Nat) (sum : ℚ)
    (p : StatPoint) (hp : p ∈ statsLoop ss pd off n sum) : p.state = pd := by
  rw [statsLoop_closed] at hp
  obtain ⟨i, _, rfl⟩ := List.mem_map.mp hp
  rfl

/-- Every point emitted by the backfill loop is dated at least
`stats_start + offset`. -/
theorem statsLoop_start_ge (ss : Int) (pd : ℚ) (n off : Nat) (sum : ℚ)
    (p : StatPoint) (hp : p ∈ statsLoop ss pd off n sum) :
    ss + (off : Int) ≤ p.start := by
  rw [statsLoop_closed] at hp
  obtain ⟨i, _, rfl⟩ := List.mem_map.mp hp
  have : (0 : Int) ≤ (i : Int) := Int.ofNat_nonneg i
  simp only
  omega

/-- Consecutive points of the backfill loop are one day apart. -/
theorem statsLoop_chain_start (ss : Int) (pd : ℚ) :
    ∀ (n off : Nat) (sum : ℚ),
      List.Chain' (fun a b => b.start = a.start + 1) (statsLoop ss pd off n sum)
  | 0, off, sum => List.chain'_nil
  | n + 1, off, sum => by
    rw [statsLoop]
    refine List.chain'_cons'.mpr ⟨fun b hb => ?_, statsLoop_chain_start ss pd n (off + 1) _⟩
    cases n with
    | zero => simp [statsLoop] at hb
    | succ m =>
      rw [statsLoop] at hb
      simp only [List.head?_cons, Option.mem_def, Option.some.injEq] at hb
      subst hb
      simp only
      push_cast
      ring

/-- Cumulative sums of the backfill loop are non-decreasing when the
per-day delta is non-negative. -/
theorem statsLoop_chain_sum (ss : Int) (pd : ℚ) (hpd : 0 ≤ pd) :
    ∀ (n off : Nat) (sum : ℚ),
      List.Chain' (fun a b => a.sum ≤ b.sum) (statsLoop ss pd off n sum)
  | 0, off, sum => List.chain'_nil
  | n + 1, off, sum => by
    rw [statsLoop]
    refine List.chain'_cons'.mpr ⟨fun b hb => ?_, statsLoop_chain_sum ss pd hpd n (off + 1) _⟩
    cases n with
    | zero => simp [statsLoop] at hb
    | succ m =>
      rw [statsLoop] at hb
      simp only [List.head?_cons, Option.mem_def, Option.some.injEq] at hb
      subst hb
      simp only
      linarith

/-- Closed form of `_update_statistics_range` when the sink holds a last
row with sum `L`: writing happens exactly over the span from
`max(start_date, last_stat_date)` exclusive to `end_date` inclusive. -/
theorem updateStatisticsRange_closed (unit : Option String) (row : StatRow)
    (S E : Int) (pd L : ℚ) (hmeta : metadataAvailable unit = true) (hpd : 0 ≤ pd)
    (hsum : row.sum = some L) :
    updateStatisticsRange unit (some row) S E pd =
      (List.range (E - max S row.start).toNat).map fun i =>
        ⟨max S row.start + (i : Int) + 1, pd, L + ((i : ℚ) + 1) * pd⟩ := by
  have hsv : (if truthyQ row.sum then row.sum.getD 0 else 0) = L := by
    rw [hsum]
    by_cases hL : L = 0
    · simp [truthyQ, hL]
    · simp [truthyQ, hL]
  have hss : (if row.start > S then row.start else S) = max S row.start := by
    rcases lt_or_le S row.start with h | h
    · rw [if_pos h, max_eq_right h.le]
    · rw [if_neg (not_lt.mpr h), max_eq_left h]
  by_cases hdays : E - max S row.start ≤ 0
  · rw [Int.toNat_of_nonpos hdays]
    simp only [List.range_zero, List.map_nil]
    simp only [updateStatisticsRange, Option.map_some', hsv, hss,
      if_neg (not_lt.mpr hpd), if_pos hdays]
  · simp only [updateStatisticsRange, Option.map_some', hsv, hss,
      if_neg (not_lt.mpr hpd), if_neg hdays]
    rw [statsLoop_closed]
    have hne : ∀ f : ℕ → StatPoint,
        (List.range (E - max S row.start).toNat).map f ≠ [] := by
      intro f
      simp only [ne_eq, List.map_eq_nil_iff, List.range_eq_nil]
      omega
    rw [if_neg (hne _), if_pos hmeta]
    refine List.map_congr_left fun i _ => ?_
    congr 1 <;> push_cast <;> ring

/-- Rounding to the nearest integer (ties to even) preserves
non-negativity. -/
theorem roundHalfEven_nonneg (q : ℚ) (hq : 0 ≤ q) : 0 ≤ roundHalfEven q := by
  simp only [roundHalfEven]
  have h0 : (0 : Int) ≤ ⌊q⌋ := Int.floor_nonneg.mpr hq
  split_ifs <;> omega

/-- Rounding to 3 decimals preserves non-negativity. -/
theorem round3_nonneg (q : ℚ) (hq : 0 ≤ q) : 0 ≤ round3 q := by
  simp only [round3]
  have h := roundHalfEven_nonneg (q * 1000) (by positivity)
  have h' : (0 : ℚ) ≤ (roundHalfEven (q * 1000) : ℚ) := Int.cast_nonneg.mpr h
  positivity

/-- Any point written by the range backfill has state `per_day` (with
`per_day ≥ 0`) and is dated strictly after both the engine-supplied start
date and the sink's last stored point. -/
theorem updateStatisticsRange_mem (unit : Option String) (sl : Option StatRow)
    (S E : Int) (pd : ℚ) (p : StatPoint)
    (hp : p ∈ updateStatisticsRange unit sl S E pd) :
    0 ≤ pd ∧ p.state = pd ∧ S < p.start ∧
      ∀ row, sl = some row → row.start < p.start := by
  rcases sl with _ | row
  · simp only [updateStatisticsRange, Option.map_none'] at hp
    repeat' split at hp
    all_goals try exact absurd hp (List.not_mem_nil p)
    have h1 := statsLoop_start_ge _ _ _ _ _ p hp
    have h2 := statsLoop_state _ _ _ _ _ p hp
    push_cast at h1
    exact ⟨by linarith, h2, by omega, fun row' hrow => by cases hrow⟩
  · simp only [updateStatisticsRange, Option.map_some'] at hp
    repeat' split at hp
    all_goals try exact absurd hp (List.not_mem_nil p)
    all_goals
      have h1 := statsLoop_start_ge _ _ _ _ _ p hp
    all_goals
      have h2 := statsLoop_state _ _ _ _ _ p hp
    all_goals push_cast at h1
    all_goals refine ⟨by linarith, h2, by omega, fun row' hrow => ?_⟩
    all_goals injection hrow with hrow'
    all_goals subst hrow'
    all_goals omega

/-- Any point written by the same-day correction has a non-negative state
and is dated exactly at the sink's last stored point. -/
theorem updateStatisticsCorrection_mem (unit : Option String) (sl : Option StatRow)
    (day : Int) (delta : ℚ) (p : StatPoint)
    (hp : p ∈ (updateStatisticsCorrection unit sl day delta).2) :
    0 ≤ p.state ∧ ∃ row, sl = some row ∧ p.start = row.start := by
  rcases sl with _ | row
  · simp only [updateStatisticsCorrection] at hp
    repeat' split at hp
    all_goals exact absurd hp (List.not_mem_nil p)
  · simp only [updateStatisticsCorrection] at hp
    repeat' split at hp
    all_goals try exact absurd hp (List.not_mem_nil p)
    have hp' := List.mem_singleton.mp hp
    subst hp'
    refine ⟨by simp only; linarith, row, rfl, by simp only; omega⟩

/-- The range backfill writes nothing, or writes one run of the loop with
a non-negative per-day value. -/
theorem updateStatisticsRange_nil_or_loop (unit : Option String) (sl : Option StatRow)
    (S E : Int) (pd : ℚ) :
    updateStatisticsRange unit sl S E pd = [] ∨
    (0 ≤ pd ∧ ∃ ss n sum0,
      updateStatisticsRange unit sl S E pd = statsLoop ss pd 1 n sum0) := by
  rcases sl with _ | row <;>
    simp only [updateStatisticsRange, Option.map_none', Option.map_some'] <;>
    repeat' split
  all_goals first
    | exact Or.inl rfl
    | exact Or.inr ⟨by linarith, _, _, _, rfl⟩

/-! ## C1: same-month decrease is classified invalid -/

/-- C1.  With a trusted baseline `(last_total, last_total_at)`, an effective
date that does not precede `last_total_at` and falls in the same calendar
month, and a current total more than `1e-6` below the baseline total, the
value-status classification yields `"invalid"`; and after the stale
downgrade and the fallback substitution the status is still never `"ok"`
for that reading. -/
theorem c1_same_month_decrease_invalid (ct lt : ℚ) (cd lta : Int)
    (hdate : ¬ cd < lta)
    (hmonth : sameCalendarMonth cd lta)
    (hdrop : ct + epsilon < lt) :
    classifyValueStatus (some ct) cd (some lt) (some lta) = "invalid" ∧
    (fallbackSubstitute
        (staleDowngrade (classifyValueStatus (some ct) cd (some lt) (some lta))
          (some ct) cd (some lt) (some lta))
        (some ct) (some lt)).2 ≠ "ok" := by
  have hclass : classifyValueStatus (some ct) cd (some lt) (some lta) = "invalid" := by
    unfold classifyValueStatus
    by_cases hneg : ct < 0
    · simp only [if_pos hneg]
    · simp only [if_neg hneg, if_neg hdate, if_pos hmonth.2]
      by_cases hz : ct = 0 ∧ lt > 0
      · simp only [if_pos hz]
      · simp only [if_neg hz, if_pos hdrop]
  refine ⟨hclass, fun hok => ?_⟩
  have h1 := fallbackSubstitute_ok _ _ _ hok
  have h2 := staleDowngrade_ok _ _ _ _ _ h1
  rw [hclass] at h2
  exact absurd h2 (by decide)

/-- C1 witness: a concrete reading (total `1`, baseline `3`, both dated
2025-03-10) satisfying the hypotheses. -/
theorem c1_same_month_decrease_invalid_witness :
    classifyValueStatus (some 1) (daysFromCivil 2025 3 10) (some 3)
      (some (daysFromCivil 2025 3 10)) = "invalid" :=
  (c1_same_month_decrease_invalid 1 3 (daysFromCivil 2025 3 10) (daysFromCivil 2025 3 10)
    (by decide) (by decide) (by norm_num [epsilon])).1

/-! ## C2: effective-date substitution rule -/

/-- C2 counterexample: for a reading dated 2025-03-01 polled on 2025-03-05,
"now" lies in the *same* calendar month, so the claim's rule keeps the
reported date, but the code substitutes yesterday (2025-03-04): the code's
trigger is `day == 1 and now.day > 1`, not "now later in a different
month". -/
theorem c2_effective_date_counterexample :
    effectiveDate (some (daysFromCivil 2025 3 1)) (daysFromCivil 2025 3 5) =
      daysFromCivil 2025 3 4 ∧
    effectiveDateSpec (some (daysFromCivil 2025 3 1)) (daysFromCivil 2025 3 5) =
      daysFromCivil 2025 3 1 ∧
    effectiveDate (some (daysFromCivil 2025 3 1)) (daysFromCivil 2025 3 5) ≠
      effectiveDateSpec (some (daysFromCivil 2025 3 1)) (daysFromCivil 2025 3 5) := by
  refine ⟨by decide, by decide, by decide⟩

/-- C2 amended: the effective date equals the snapshot's reported date,
except that "yesterday relative to now" is substituted exactly when the
reported date is absent, or when the reported date falls on the 1st of a
month while "now"'s day of month is greater than 1. -/
theorem c2_effective_date_amended :
    (∀ today : Int, effectiveDate none today = today - 1) ∧
    (∀ d today : Int, dayOf d = 1 ∧ 1 < dayOf today →
      effectiveDate (some d) today = today - 1) ∧
    (∀ d today : Int, ¬ (dayOf d = 1 ∧ 1 < dayOf today) →
      effectiveDate (some d) today = d) := by
  refine ⟨fun today => rfl, fun d today h => ?_, fun d today h => ?_⟩
  · unfold effectiveDate
    simp only [if_pos h]
  · unfold effectiveDate
    simp only [if_neg h]

/-- C2 amended witness: reported 2025-03-01 polled on 2025-03-05 is
substituted with 2025-03-04. -/
theorem c2_effective_date_amended_witness :
    effectiveDate (some (daysFromCivil 2025 3 1)) (daysFromCivil 2025 3 5) =
      daysFromCivil 2025 3 5 - 1 :=
  c2_effective_date_amended.2.1 (daysFromCivil 2025 3 1) (daysFromCivil 2025 3 5) (by decide)

/-! ## C3: leak-indicator normalization -/

/-- C3 counterexample: for a payload whose latest record carries
`fuiteEstimee = "oui"`, the snapshot's leak indicator is the raw string
`"oui"` — not the normalized float `1.0` the claim asserts (`_to_float`
would indeed map `"oui"` to `1.0`, but `_parse_conso` never applies it to
the leak field, it stringifies the raw value; `"oui"` itself parses as no
float at all). -/
theorem c3_leak_counterexample :
    (parseConso ⟨[⟨some "2025-01-01", .pynum 5, .pystr "oui"⟩], some "m3"⟩).leak_estimate
      = some "oui" ∧
    toFloat (.pystr "oui") = some 1 ∧
    pyFloatOfString "oui" = none :=
  ⟨rfl, rfl, rfl⟩

/-- C3 amended: the snapshot's leak indicator is the raw provider value
stringified (absent when the raw value is `None`), with no normalization;
the yes/no normalization (`"oui"` variants to `1.0`, `"non"` variants to
`0.0`, unparseable values to `None`, never raising) is performed by the
total function `_to_float`, which the fetcher applies to consumption
values. -/
theorem c3_leak_amended :
    (∀ payload : ConsoPayload,
      (parseConso payload).leak_estimate =
        if (latestRecord payload).fuiteEstimee = .pynone then none
        else some (pyStr (latestRecord payload).fuiteEstimee)) ∧
    (∀ s : String, pyLower (pyStrip s) = "oui" ∨ pyLower (pyStrip s) = "yes" ∨
        pyLower (pyStrip s) = "true" → toFloat (.pystr s) = some 1) ∧
    (∀ s : String, pyLower (pyStrip s) = "non" ∨ pyLower (pyStrip s) = "no" ∨
        pyLower (pyStrip s) = "false" ∨ pyLower (pyStrip s) = "pas de fuite" ∨
        pyLower (pyStrip s) = "aucune fuite" → toFloat (.pystr s) = some 0) ∧
    toFloat (.pystr "n/a") = none ∧ toFloat .pynone = none := by
  refine ⟨fun payload => rfl, fun s h => ?_, fun s h => ?_, rfl, rfl⟩
  · simp only [toFloat]
    rcases h with h | h | h <;> rw [h] <;> rfl
  · simp only [toFloat]
    rcases h with h | h | h | h | h <;> rw [h] <;> rfl

/-- C3 amended witness: `" OUI "` normalizes to `1.0` through `_to_float`. -/
theorem c3_leak_amended_witness : toFloat (.pystr " OUI ") = some 1 :=
  c3_leak_amended.2.1 " OUI " (Or.inl rfl)

/-! ## C4: multi-day backfill -/

/-- C4.  For a backfill with `per_day ≥ 0`, start date `S`, end date `E`
and a last sink row with cumulative sum `L`, exactly
`(E - max(S, last_row_date)).toNat` daily points are emitted, one per
calendar day from `max(S, last_row_date)` exclusive to `E` inclusive, each
with state `per_day` and cumulative sums `L + per_day, L + 2·per_day, …`;
a non-positive or already up-to-date span (`E ≤ max(S, last_row_date)`)
yields the empty range, pushing nothing. -/
theorem c4_multi_day_backfill (unit : Option String) (row : StatRow) (S E : Int)
    (pd L : ℚ) (hmeta : metadataAvailable unit = true) (hpd : 0 ≤ pd)
    (hsum : row.sum = some L) :
    updateStatisticsRange unit (some row) S E pd =
      (List.range (E - max S row.start).toNat).map fun i =>
        ⟨max S row.start + (i : Int) + 1, pd, L + ((i : ℚ) + 1) * pd⟩ :=
  updateStatisticsRange_closed unit row S E pd L hmeta hpd hsum

/-- C4 witness: the spec's example — baseline date `D = 0`, reading three
days later (`E = 3`), `per_day = 10`, last sink point `(date 0, sum 10)` —
emits points on days `1, 2, 3` with state `10` and sums `20, 30, 40`. -/
theorem c4_multi_day_backfill_witness :
    updateStatisticsRange (some "L") (some ⟨0, some 10, some 10⟩) 0 3 10 =
      [⟨1, 10, 20⟩, ⟨2, 10, 30⟩, ⟨3, 10, 40⟩] := by
  have h := c4_multi_day_backfill (some "L") ⟨0, some 10, some 10⟩ 0 3 10 10
    (by decide) (by norm_num) rfl
  rw [h]
  have h3 : ((3 : Int) - max 0 0).toNat = 3 := by decide
  rw [h3]
  norm_num [List.range_succ]

/-! ## C5: same-day correction -/

/-- C5 counterexample: with a last stored point `(state 1, sum 5)` dated
`100` and a positive delta `1/2500 = 0.0004`, the code stores
`round(1.0004, 3) = 1`: the new per-day state is *not* the old state plus
delta (`1.0004`), and the cumulative sum is adjusted by `0`, not by the
delta — the claim omits the 3-decimal rounding. -/
theorem c5_correction_counterexample :
    updateStatisticsCorrection (some "L") (some ⟨100, some 1, some 5⟩) 100 (1 / 2500) =
      (some 1, [⟨100, 1, 5⟩]) ∧
    (1 : ℚ) ≠ 1 + 1 / 2500 := by
  constructor
  · norm_num [updateStatisticsCorrection, pyOrZero, round3, roundHalfEven, metadataAvailable]
  · norm_num

/-- C5 amended: for a same-day correction with positive delta on the last
stored point, the new per-day state is `round(old state + delta, 3)` and
the cumulative sum is adjusted by the same (rounded) amount
`new state - old state`; the correction is rejected, writing nothing, if
the rounded new state would be negative. -/
theorem c5_same_day_correction_amended (unit : Option String) (row : StatRow)
    (day : Int) (delta : ℚ)
    (hpos : 0 < delta) (hday : row.start = day) (hmeta : metadataAvailable unit = true) :
    (0 ≤ round3 (pyOrZero row.state + delta) →
      updateStatisticsCorrection unit (some row) day delta =
        (some (round3 (pyOrZero row.state + delta)),
          [⟨day, round3 (pyOrZero row.state + delta),
            pyOrZero row.sum - pyOrZero row.state + round3 (pyOrZero row.state + delta)⟩])) ∧
    (round3 (pyOrZero row.state + delta) < 0 →
      updateStatisticsCorrection unit (some row) day delta = (none, [])) := by
  have hnle : ¬ delta ≤ 0 := not_le.mpr hpos
  have hne : ¬ (row.start ≠ day) := not_not_intro hday
  constructor <;> intro hcase <;>
    simp only [updateStatisticsCorrection, if_neg hnle, if_neg hne]
  · simp only [if_neg (not_lt.mpr hcase), hmeta, if_true]
  · simp only [if_pos hcase]

/-- C5 amended witness: the spec's own example — old state `1`, sum `5`,
same-day delta `+2` — yields corrected state `3` and sum `7`, a `+2` shift
of both. -/
theorem c5_same_day_correction_amended_witness :
    updateStatisticsCorrection (some "L") (some ⟨100, some 1, some 5⟩) 100 2 =
      (some 3, [⟨100, 3, 7⟩]) := by
  have h := (c5_same_day_correction_amended (some "L") ⟨100, some 1, some 5⟩ 100 2
    (by norm_num) rfl (by decide)).1
    (by norm_num [pyOrZero, round3, roundHalfEven])
  rw [h]
  norm_num [pyOrZero, round3, roundHalfEven]

/-! ## C6: month-boundary reset -/

/-- C6.  For an `"ok"`-classified reading dated differently from the
baseline, with a negative naive delta and a month number differing from
the baseline's, the reset resolution yields delta `current_total` (a
non-negative value, since an `"ok"` total is non-negative), source
`"month_reset"`, and a backfill window starting at the current month's
start minus one day; concretely, baseline `(95, 2025-01-31)` with reading
`(5, 2025-02-03)` yields delta `5` and window start `2025-01-31`. -/
theorem c6_month_reset (ct lt : ℚ) (lta cd : Int)
    (hok : classifyValueStatus (some ct) cd (some lt) (some lta) = "ok")
    (hne : cd ≠ lta)
    (hneg : ct - lt < 0)
    (hmonth : monthOf lta ≠ monthOf cd) :
    resolveDelta ct lt lta cd = (ct, some "month_reset", monthStart cd - 1) ∧
    0 ≤ ct ∧
    resolveDelta 5 95 (daysFromCivil 2025 1 31) (daysFromCivil 2025 2 3) =
      (5, some "month_reset", daysFromCivil 2025 1 31) := by
  refine ⟨?_, classify_ok_total_nonneg ct cd _ _ hok, ?_⟩
  · unfold resolveDelta
    rw [if_pos ⟨hneg, hmonth⟩]
  · have hm : monthOf (daysFromCivil 2025 1 31) ≠ monthOf (daysFromCivil 2025 2 3) := by
      decide
    have hn : (5 : ℚ) - 95 < 0 := by norm_num
    unfold resolveDelta
    rw [if_pos ⟨hn, hm⟩]
    have hms : monthStart (daysFromCivil 2025 2 3) - 1 = daysFromCivil 2025 1 31 := by
      decide
    rw [hms]

/-! ## C10: the backfill never overwrites a stored point -/

/-- C10.  In every batch emitted by the multi-day backfill, each point
(in particular the first) is dated strictly later than both the
engine-supplied start date and the sink's last stored point, consecutive
points are exactly one calendar day apart, and cumulative sums are
non-decreasing; so the backfill path never overwrites a previously stored
daily point, while the same-day correction path writes only at the stored
last point's exact date. -/
theorem c10_backfill_no_overwrite (unit : Option String) (sl : Option StatRow)
    (S E : Int) (pd : ℚ) :
    (∀ p ∈ updateStatisticsRange unit sl S E pd,
      S < p.start ∧ ∀ row, sl = some row → row.start < p.start) ∧
    List.Chain' (fun a b => b.start = a.start + 1) (updateStatisticsRange unit sl S E pd) ∧
    List.Chain' (fun a b => a.sum ≤ b.sum) (updateStatisticsRange unit sl S E pd) ∧
    (∀ day delta p, p ∈ (updateStatisticsCorrection unit sl day delta).2 →
      ∃ row, sl = some row ∧ p.start = row.start) := by
  refine ⟨fun p hp => ⟨(updateStatisticsRange_mem unit sl S E pd p hp).2.2.1,
      (updateStatisticsRange_mem unit sl S E pd p hp).2.2.2⟩, ?_, ?_,
    fun day delta p hp => (updateStatisticsCorrection_mem unit sl day delta p hp).2⟩
  · rcases updateStatisticsRange_nil_or_loop unit sl S E pd with h | ⟨_, ss, n, sum0, h⟩ <;>
      rw [h]
    · exact List.chain'_nil
    · exact statsLoop_chain_start ss pd n 1 sum0
  · rcases updateStatisticsRange_nil_or_loop unit sl S E pd with h | ⟨hpd, ss, n, sum0, h⟩ <;>
      rw [h]
    · exact List.chain'_nil
    · exact statsLoop_chain_sum ss pd hpd n 1 sum0

/-- C10 witness: concrete batch (start `0`, end `3`, per-day `10`, last
sink point dated `0`) — dates advance by exactly one day and sums are
non-decreasing. -/
theorem c10_backfill_no_overwrite_witness :
    List.Chain' (fun a b => b.start = a.start + 1)
      (updateStatisticsRange (some "L") (some ⟨0, some 10, some 10⟩) 0 3 10) ∧
    List.Chain' (fun a b => a.sum ≤ b.sum)
      (updateStatisticsRange (some "L") (some ⟨0, some 10, some 10⟩) 0 3 10) :=
  ⟨(c10_backfill_no_overwrite (some "L") (some ⟨0, some 10, some 10⟩) 0 3 10).2.1,
   (c10_backfill_no_overwrite (some "L") (some ⟨0, some 10, some 10⟩) 0 3 10).2.2.1⟩

/-! ## C7: sink-write invariant -/

/-- The daily derivation either writes nothing or reports status
`"ok"`, `"corrected"` or `"estimated"`. -/
theorem deriveDaily_cases (vs : String) (vu ct : Option ℚ) (cd : Int)
    (lt : Option ℚ) (lta : Option Int) (unit : Option String) (sl : Option StatRow) :
    (deriveDaily vs vu ct cd lt lta unit sl).pushed = [] ∨
    (deriveDaily vs vu ct cd lt lta unit sl).daily_status = "ok" ∨
    (deriveDaily vs vu ct cd lt lta unit sl).daily_status = "corrected" ∨
    (deriveDaily vs vu ct cd lt lta unit sl).daily_status = "estimated" := by
  simp only [deriveDaily]
  repeat' split
  all_goals simp

/-- Every point the daily derivation pushes has a non-negative state. -/
theorem deriveDaily_state_nonneg (vs : String) (vu ct : Option ℚ) (cd : Int)
    (lt : Option ℚ) (lta : Option Int) (unit : Option String) (sl : Option StatRow)
    (p : StatPoint) (hp : p ∈ (deriveDaily vs vu ct cd lt lta unit sl).pushed) :
    0 ≤ p.state := by
  simp only [deriveDaily] at hp
  repeat' split at hp
  all_goals try exact absurd hp (List.not_mem_nil p)
  all_goals first
    | exact (updateStatisticsCorrection_mem _ _ _ _ p hp).1
    | (have h := updateStatisticsRange_mem _ _ _ _ _ p hp
       rw [h.2.1]
       exact h.1)

/-- The per-fluid reconciliation's sink writes and daily status are those
of the daily derivation, at the engine's value status, used value and
effective date. -/
theorem reconcileFluid_daily (inp : FluidInput) (today : Int) :
    ∃ vs vu,
      (reconcileFluid inp today).pushed =
        (deriveDaily vs vu inp.current_total (effectiveDate inp.api_date today)
          inp.last_total inp.last_total_at inp.unit inp.sink_last).pushed ∧
      (reconcileFluid inp today).daily_status =
        (deriveDaily vs vu inp.current_total (effectiveDate inp.api_date today)
          inp.last_total inp.last_total_at inp.unit inp.sink_last).daily_status :=
  ⟨_, _, rfl, rfl⟩

/-- C7.  Invariant of every poll: every daily point pushed to the
Statistics Sink has a non-negative per-day state, and points are pushed
only when the daily status is `"ok"`, `"corrected"` or `"estimated"`. -/
theorem c7_push_invariant (inp : FluidInput) (today : Int) :
    (∀ p ∈ (reconcileFluid inp today).pushed, 0 ≤ p.state) ∧
    ((reconcileFluid inp today).pushed ≠ [] →
      (reconcileFluid inp today).daily_status = "ok" ∨
      (reconcileFluid inp today).daily_status = "corrected" ∨
      (reconcileFluid inp today).daily_status = "estimated") := by
  obtain ⟨vs, vu, hpush, hstat⟩ := reconcileFluid_daily inp today
  constructor
  · intro p hp
    rw [hpush] at hp
    exact deriveDaily_state_nonneg vs vu _ _ _ _ _ _ p hp
  · intro hne
    rw [hpush] at hne
    rw [hstat]
    rcases deriveDaily_cases vs vu inp.current_total (effectiveDate inp.api_date today)
      inp.last_total inp.last_total_at inp.unit inp.sink_last with h | h
    · exact absurd h hne
    · exact h

/-- C7 witness: a poll that does push (total `40` against baseline
`(10, day 0)` three days later) reports one of the pushing statuses. -/
theorem c7_push_invariant_witness :
    (reconcileFluid ⟨some 40, some 3, some 10, some 0, some "L",
        some ⟨0, some 10, some 10⟩⟩ 4).daily_status = "ok" ∨
    (reconcileFluid ⟨some 40, some 3, some 10, some 0, some "L",
        some ⟨0, some 10, some 10⟩⟩ 4).daily_status = "corrected" ∨
    (reconcileFluid ⟨some 40, some 3, some 10, some 0, some "L",
        some ⟨0, some 10, some 10⟩⟩ 4).daily_status = "estimated" := by
  apply (c7_push_invariant ⟨some 40, some 3, some 10, some 0, some "L",
    some ⟨0, some 10, some 10⟩⟩ 4).2
  have hpush : (reconcileFluid ⟨some 40, some 3, some 10, some 0, some "L",
      some ⟨0, some 10, some 10⟩⟩ 4).pushed =
      updateStatisticsRange (some "L") (some ⟨0, some 10, some 10⟩) 0 3 10 := by
    norm_num [reconcileFluid, effectiveDate, classifyValueStatus, staleDowngrade,
      fallbackSubstitute, deriveDaily, resolveDelta, epsilon, round3, roundHalfEven, pyOrStr,
      show dayOf 3 = 4 from by decide, show dayOf 4 = 5 from by decide,
      show monthOf 3 = 1 from by decide, show monthOf 0 = 1 from by decide,
      show ¬ (("ok" : String) = "missing" ∨ ("ok" : String) = "invalid") from by decide,
      show ("ok" : String) ≠ "stale" from by decide]
  rw [hpush, updateStatisticsRange_closed (some "L") ⟨0, some 10, some 10⟩ 0 3 10 10
    (by decide) (by norm_num) rfl]
  simp only [ne_eq, List.map_eq_nil_iff, List.range_eq_nil]
  decide

/-- C6 witness: the spec's example instantiates all hypotheses — the
classification of `(5, 2025-02-03)` against baseline `(95, 2025-01-31)` is
`"ok"` (different month, so the decrease is not flagged). -/
theorem c6_month_reset_witness :
    resolveDelta 5 95 (daysFromCivil 2025 1 31) (daysFromCivil 2025 2 3) =
      (5, some "month_reset", monthStart (daysFromCivil 2025 2 3) - 1) := by
  have hok : classifyValueStatus (some 5) (daysFromCivil 2025 2 3) (some 95)
      (some (daysFromCivil 2025 1 31)) = "ok" := by
    simp only [classifyValueStatus]
    have h1 : ¬ (5 : ℚ) < 0 := by norm_num
    have h2 : ¬ daysFromCivil 2025 2 3 < daysFromCivil 2025 1 31 := by decide
    have h3 : ¬ monthOf (daysFromCivil 2025 2 3) = monthOf (daysFromCivil 2025 1 31) := by
      decide
    rw [if_neg h1, if_neg h2, if_neg h3]
  exact (c6_month_reset 5 95 (daysFromCivil 2025 1 31) (daysFromCivil 2025 2 3) hok
    (by decide) (by norm_num) (by decide)).1

/-! ## C8: baseline persistence -/

/-- The persisted baseline is the baseline update applied to the final
value status, the raw total and the effective date. -/
theorem reconcileFluid_store (inp : FluidInput) (today : Int) :
    ((reconcileFluid inp today).store_total, (reconcileFluid inp today).store_at) =
      updateStore (reconcileFluid inp today).value_status inp.current_total
        (reconcileFluid inp today).current_date inp.last_total inp.last_total_at := rfl

/-- The final value status is classification, stale downgrade and fallback
in sequence. -/
theorem reconcileFluid_value_status (inp : FluidInput) (today : Int) :
    (reconcileFluid inp today).value_status =
      (fallbackSubstitute
        (staleDowngrade
          (classifyValueStatus inp.current_total (effectiveDate inp.api_date today)
            inp.last_total inp.last_total_at)
          inp.current_total (effectiveDate inp.api_date today) inp.last_total
          inp.last_total_at)
        inp.current_total inp.last_total).2 := rfl

/-- The reported effective date is the effective-date resolution. -/
theorem reconcileFluid_current_date (inp : FluidInput) (today : Int) :
    (reconcileFluid inp today).current_date = effectiveDate inp.api_date today := rfl

/-- A final `"ok"` status implies the raw classification was `"ok"`. -/
theorem reconcileFluid_ok_classify (inp : FluidInput) (today : Int)
    (h : (reconcileFluid inp today).value_status = "ok") :
    classifyValueStatus inp.current_total (effectiveDate inp.api_date today)
      inp.last_total inp.last_total_at = "ok" := by
  rw [reconcileFluid_value_status] at h
  exact staleDowngrade_ok _ _ _ _ _ (fallbackSubstitute_ok _ _ _ h)

/-- An `"ok"` classification implies the total is present. -/
theorem classify_ok_total_isSome (oct : Option ℚ) (cd : Int) (olt : Option ℚ)
    (olta : Option Int) (h : classifyValueStatus oct cd olt olta = "ok") :
    oct.isSome = true := by
  rcases oct with _ | ct
  · have h' : ("missing" : String) = "ok" := h
    exact absurd h' (by decide)
  · rfl

/-- C8.  The persisted baseline is replaced with
`(current total, effective date)` exactly when the final value status is
`"ok"` and the total is present and actually changed (or no baseline
existed); otherwise the old baseline is kept unchanged.  Consequently, for
a well-formed baseline (total and date present together) `last_total_at`
never decreases across polls. -/
theorem c8_baseline_update (inp : FluidInput) (today : Int)
    (hwf : inp.last_total = none ↔ inp.last_total_at = none) :
    ((reconcileFluid inp today).store_total, (reconcileFluid inp today).store_at) =
      (if (reconcileFluid inp today).value_status = "ok" ∧
          inp.current_total.isSome = true ∧
          (inp.last_total.isNone ∨ inp.last_total_at.isNone ∨
            inp.current_total ≠ inp.last_total)
        then (inp.current_total, some ((reconcileFluid inp today).current_date))
        else (inp.last_total, inp.last_total_at)) ∧
    (∀ lta lta', inp.last_total_at = some lta →
      (reconcileFluid inp today).store_at = some lta' → lta ≤ lta') := by
  have hstore := reconcileFluid_store inp today
  constructor
  · rw [hstore]
    simp only [updateStore]
    by_cases h1 : (reconcileFluid inp today).value_status = "ok" ∧
        inp.current_total.isSome = true
    · rw [if_pos h1]
      by_cases h2 : inp.last_total.isNone ∨ inp.last_total_at.isNone ∨
          inp.current_total ≠ inp.last_total
      · rw [if_pos h2, if_pos ⟨h1.1, h1.2, h2⟩]
      · rw [if_neg h2, if_neg fun hc => h2 hc.2.2]
    · rw [if_neg h1, if_neg fun hc => h1 ⟨hc.1, hc.2.1⟩]
  · intro lta lta' hlta hsa
    have hsnd := congrArg Prod.snd hstore
    simp only at hsnd
    rw [hsnd] at hsa
    simp only [updateStore, apply_ite Prod.snd] at hsa
    by_cases h1 : (reconcileFluid inp today).value_status = "ok" ∧
        inp.current_total.isSome = true
    · rw [if_pos h1] at hsa
      by_cases h2 : inp.last_total.isNone ∨ inp.last_total_at.isNone ∨
          inp.current_total ≠ inp.last_total
      · rw [if_pos h2] at hsa
        have hclass := reconcileFluid_ok_classify inp today h1.1
        have hltsome : inp.last_total ≠ none := fun hnone =>
          Option.noConfusion (hlta.symm.trans (hwf.mp hnone))
        obtain ⟨l, hl⟩ := Option.ne_none_iff_exists'.mp hltsome
        obtain ⟨c, hc⟩ := Option.isSome_iff_exists.mp h1.2
        rw [hc, hl, hlta] at hclass
        have hge := classify_ok_not_date_lt c l _ lta hclass
        rw [reconcileFluid_current_date] at hsa
        injection hsa with hsa'
        omega
      · rw [if_neg h2] at hsa
        rw [hlta] at hsa
        injection hsa with hsa'
        omega
    · rw [if_neg h1] at hsa
      rw [hlta] at hsa
      injection hsa with hsa'
      omega

/-- C8 witness: an `"ok"` poll (total `40` on day `3` against baseline
`(10, day 0)`) replaces the baseline with `(40, 3)`. -/
theorem c8_baseline_update_witness :
    ((reconcileFluid ⟨some 40, some 3, some 10, some 0, some "L", none⟩ 4).store_total,
     (reconcileFluid ⟨some 40, some 3, some 10, some 0, some "L", none⟩ 4).store_at) =
      (some 40, some 3) := by
  have hvs : (reconcileFluid ⟨some 40, some 3, some 10, some 0, some "L",
      none⟩ 4).value_status = "ok" := by
    rw [reconcileFluid_value_status]
    norm_num [effectiveDate, classifyValueStatus, staleDowngrade, fallbackSubstitute,
      epsilon,
      show dayOf 3 = 4 from by decide, show dayOf 4 = 5 from by decide,
      show monthOf 3 = 1 from by decide, show monthOf 0 = 1 from by decide,
      show ¬ (("ok" : String) = "missing" ∨ ("ok" : String) = "invalid") from by decide]
  have h := (c8_baseline_update ⟨some 40, some 3, some 10, some 0, some "L", none⟩ 4
    (by simp)).1
  rw [h, if_pos ⟨hvs, rfl, Or.inr (Or.inr (by
    simp only [ne_eq, Option.some.injEq]
    norm_num))⟩, reconcileFluid_current_date]
  have he : effectiveDate (some 3) 4 = 3 := by decide
  rw [he]

/-! ## C9: the 401 recovery cascade -/

/-- The refresh attempt emits no event or exactly one `refreshAttempt`. -/
theorem tryRefresh_events (env : AuthEnv) (st : AuthState) :
    (tryRefresh env st).events = [] ∨
    (tryRefresh env st).events = [AuthEvent.refreshAttempt st] := by
  simp only [tryRefresh]
  split
  · exact Or.inl rfl
  · rcases env.refresh_resp with _ | tok
    · exact Or.inr rfl
    · exact Or.inr rfl

/-- On a 401, the recovery first replays the refresh events and, only when
the refresh failed, one PKCE attempt from the cleared state. -/
theorem handleUnauthorized_events (env : AuthEnv) (st : AuthState) :
    ((tryRefresh env st).ok = true ∧
      (handleUnauthorized env st).events = (tryRefresh env st).events) ∨
    ((tryRefresh env st).ok = false ∧
      (handleUnauthorized env st).events =
        (tryRefresh env st).events ++ [AuthEvent.pkceAttempt ⟨none, none⟩]) := by
  by_cases hok : (tryRefresh env st).ok = true
  · exact Or.inl ⟨hok, by simp only [handleUnauthorized, if_pos hok]⟩
  · refine Or.inr ⟨by simpa using hok, ?_⟩
    simp only [handleUnauthorized, if_neg hok]
    rcases henv : env.pkce_resp with _ | tok <;> simp [authPkce, henv]

/-- Any PKCE attempt of the 401 recovery starts from the cleared token
state, and happens only when the refresh grant failed. -/
theorem handleUnauthorized_pkce (env : AuthEnv) (st st' : AuthState)
    (hmem : AuthEvent.pkceAttempt st' ∈ (handleUnauthorized env st).events) :
    st' = ⟨none, none⟩ ∧ (tryRefresh env st).ok = false := by
  rcases handleUnauthorized_events env st with ⟨hok, hev⟩ | ⟨hok, hev⟩
  · rw [hev] at hmem
    rcases tryRefresh_events env st with h | h <;> rw [h] at hmem <;> simp at hmem
  · rw [hev, List.mem_append] at hmem
    rcases hmem with hmem | hmem
    · rcases tryRefresh_events env st with h | h <;> rw [h] at hmem <;> simp at hmem
    · simp only [List.mem_singleton, AuthEvent.pkceAttempt.injEq] at hmem
      exact ⟨hmem, hok⟩

/-- The 401 recovery itself sends no API request. -/
theorem handleUnauthorized_requestCount (env : AuthEnv) (st : AuthState) :
    requestCount (handleUnauthorized env st).events = 0 := by
  rcases handleUnauthorized_events env st with ⟨_, hev⟩ | ⟨_, hev⟩ <;> rw [hev] <;>
    rcases tryRefresh_events env st with h | h <;> rw [h] <;> simp [requestCount]

/-- Counting API requests distributes over list construction. -/
theorem requestCount_cons_request (tok : Option String) (l : List AuthEvent) :
    requestCount (AuthEvent.request tok :: l) = requestCount l + 1 := by
  simp [requestCount, List.countP_cons]

/-- Counting API requests distributes over append. -/
theorem requestCount_append (l1 l2 : List AuthEvent) :
    requestCount (l1 ++ l2) = requestCount l1 + requestCount l2 := by
  simp [requestCount, List.countP_append]

/-- One request event counts once. -/
theorem requestCount_singleton_request (tok : Option String) :
    requestCount [AuthEvent.request tok] = 1 := by
  simp [requestCount]

/-- No events, no requests. -/
theorem requestCount_nil : requestCount [] = 0 := rfl

/-- Explicit shape of `_get` when the held token is rejected with a 401. -/
theorem getRequest_eq_of_401 (env : AuthEnv) (st : AuthState)
    (htok : strTruthy st.access_token = true) (h401 : env.status1 = 401) :
    getRequest env st =
      if (handleUnauthorized env st).ok then
        if 400 ≤ env.status2 then
          ⟨.error ("HTTP " ++ toString env.status2), (handleUnauthorized env st).state,
            AuthEvent.request st.access_token :: ((handleUnauthorized env st).events ++
              [AuthEvent.request (handleUnauthorized env st).state.access_token])⟩
        else
          ⟨.ok env.status2, (handleUnauthorized env st).state,
            AuthEvent.request st.access_token :: ((handleUnauthorized env st).events ++
              [AuthEvent.request (handleUnauthorized env st).state.access_token])⟩
      else
        ⟨.error ("HTTP " ++ toString 401), (handleUnauthorized env st).state,
          AuthEvent.request st.access_token :: (handleUnauthorized env st).events⟩ := by
  simp only [getRequest, ensureToken, if_pos htok, h401, List.nil_append,
    List.singleton_append, List.cons_append, List.append_assoc]
  split
  · rfl
  · simp_all

/-- C9.  For an authorized call holding a token that receives an HTTP 401:
the refresh grant is attempted first (its events immediately follow the
rejected request); any full-PKCE attempt starts from a state with both
tokens cleared and happens only after the refresh grant failed; the call
sends at most two requests (one retry, only after a successful recovery);
and when the recovery fails, the call fails with the 401 authentication
error having sent no second request. -/
theorem c9_unauthorized_cascade (env : AuthEnv) (st : AuthState)
    (htok : strTruthy st.access_token = true) (h401 : env.status1 = 401) :
    (∃ rest, (getRequest env st).events =
      AuthEvent.request st.access_token :: ((tryRefresh env st).events ++ rest)) ∧
    (∀ st', AuthEvent.pkceAttempt st' ∈ (getRequest env st).events →
      st' = ⟨none, none⟩ ∧ (tryRefresh env st).ok = false) ∧
    requestCount (getRequest env st).events ≤ 2 ∧
    ((handleUnauthorized env st).ok = false →
      (getRequest env st).result = .error ("HTTP " ++ toString 401) ∧
      requestCount (getRequest env st).events = 1) := by
  have hg := getRequest_eq_of_401 env st htok h401
  have hhu : ∃ tail, (handleUnauthorized env st).events =
      (tryRefresh env st).events ++ tail := by
    rcases handleUnauthorized_events env st with ⟨_, hev⟩ | ⟨_, hev⟩
    · exact ⟨[], by rw [hev, List.append_nil]⟩
    · exact ⟨_, hev⟩
  obtain ⟨tail, htail⟩ := hhu
  have hcount := handleUnauthorized_requestCount env st
  by_cases hok : (handleUnauthorized env st).ok = true
  · rw [if_pos hok] at hg
    by_cases hs2 : 400 ≤ env.status2
    · rw [if_pos hs2] at hg
      refine ⟨⟨tail ++ [AuthEvent.request (handleUnauthorized env st).state.access_token],
        by rw [hg, htail]; simp⟩, ?_, ?_, ?_⟩
      · intro st' hmem
        rw [hg] at hmem
        rcases List.mem_cons.mp hmem with h | h
        · cases h
        rcases List.mem_append.mp h with h | h
        · exact handleUnauthorized_pkce env st st' h
        · rcases List.mem_cons.mp h with h | h
          · cases h
          · cases h
      · rw [hg]
        simp only [requestCount_cons_request, requestCount_append,
          requestCount_singleton_request, requestCount_nil, hcount]
        omega
      · intro hfalse
        rw [hok] at hfalse
        cases hfalse
    · rw [if_neg hs2] at hg
      refine ⟨⟨tail ++ [AuthEvent.request (handleUnauthorized env st).state.access_token],
        by rw [hg, htail]; simp⟩, ?_, ?_, ?_⟩
      · intro st' hmem
        rw [hg] at hmem
        rcases List.mem_cons.mp hmem with h | h
        · cases h
        rcases List.mem_append.mp h with h | h
        · exact handleUnauthorized_pkce env st st' h
        · rcases List.mem_cons.mp h with h | h
          · cases h
          · cases h
      · rw [hg]
        simp only [requestCount_cons_request, requestCount_append,
          requestCount_singleton_request, requestCount_nil, hcount]
        omega
      · intro hfalse
        rw [hok] at hfalse
        cases hfalse
  · rw [if_neg hok] at hg
    refine ⟨⟨tail, by rw [hg, htail]⟩, ?_, ?_, fun _ => ⟨by rw [hg], ?_⟩⟩
    · intro st' hmem
      rw [hg] at hmem
      rcases List.mem_cons.mp hmem with h | h
      · cases h
      · exact handleUnauthorized_pkce env st st' h
    · rw [hg]
      simp only [requestCount_cons_request, requestCount_nil, hcount]
      omega
    · rw [hg]
      simp only [requestCount_cons_request, requestCount_nil, hcount]

/-- C9 witness: with a held token, a 401 first response, a failing refresh
grant and a failing PKCE flow, the call errors out as `HTTP 401` having
sent exactly one request. -/
theorem c9_unauthorized_cascade_witness :
    (getRequest ⟨none, none, none, 401, 200⟩ ⟨some "tok", some "ref"⟩).result =
      .error ("HTTP " ++ toString 401) ∧
    requestCount (getRequest ⟨none, none, none, 401, 200⟩ ⟨some "tok", some "ref"⟩).events
      = 1 :=
  (c9_unauthorized_cascade ⟨none, none, none, 401, 200⟩ ⟨some "tok", some "ref"⟩
    (by decide) rfl).2.2.2 (by decide)

end OceaCollector
